import Mathlib

/-!
Verification of the performance_calculator repository.

The development shallowly embeds the two pipeline stages:
the Fetcher (github_services/repository_analyzer.py, function get_workflow_runs
plus the date-filter helper calculator_utils/arguments_helper.py, function
format_date_range) and the Aggregator
(calculate_github_personal_performance.py, function
calculate_github_personal_performance).

Dates are modelled as day numbers (days since 1970-01-01, an Int); the
Gregorian rendering used by strftime is given by civilFromDays.  CSV cell
values for the build ratio are modelled as String ⊕ ℚ: the left summand is the
literal text written to the CSV (the code writes the string "inf"), the right
summand is the rounded numeric value.  Machine floats are modelled by exact
rationals; the rounding use here (round(x, 2), banker's rounding) is computed
on integer pairs.
-/

/-- Gregorian calendar date (year, month, day) from a day number counted from
1970-01-01, for day numbers from year 0 onward.  This is the meaning of the
date part of a Python datetime and of strftime %Y-%m-%d. -/
def civilFromDays (z : Int) : Nat × Nat × Nat :=
  let za := (z + 719468).toNat
  let era := za / 146097
  let doe := za % 146097
  let yoe := (doe - doe / 1460 + doe / 36524 - doe / 146096) / 365
  let y := yoe + era * 400
  let doy := doe - (365 * yoe + yoe / 4 - yoe / 100)
  let mp := (5 * doy + 2) / 153
  let d := doy - (153 * mp + 2) / 5 + 1
  let m := if mp < 10 then mp + 3 else mp - 9
  (if m ≤ 2 then y + 1 else y, m, d)

/-- Zero-padded two-digit rendering of a month or day number. -/
def pad2 (n : Nat) : String := if n < 10 then "0" ++ toString n else toString n

/-- Zero-padded four-digit rendering of a year. -/
def pad4 (n : Nat) : String :=
  if n < 10 then "000" ++ toString n
  else if n < 100 then "00" ++ toString n
  else if n < 1000 then "0" ++ toString n
  else toString n

/-- strftime %Y-%m-%d of the date with the given day number. -/
def fmtDayNum (z : Int) : String :=
  let c := civilFromDays z
  pad4 c.1 ++ "-" ++ pad2 c.2.1 ++ "-" ++ pad2 c.2.2

/-- Python date.weekday(): Monday = 0 … Sunday = 6.  Day 0 (1970-01-01) was a
Thursday, weekday 3. -/
def pyWeekday (z : Int) : Int := (z + 3) % 7

/-- week_start = created_date - timedelta(days=created_date.weekday())
(calculate_github_personal_performance.py line 46), at the level of day
numbers. -/
def weekStart (z : Int) : Int := z - pyWeekday z

/-- week_end = week_start + timedelta(days=6) (line 47). -/
def weekEnd (z : Int) : Int := weekStart z + 6

/-- date_range = f-string week_start %Y-%m-%d, three dots, week_end %Y-%m-%d
(line 50). -/
def dateRange (z : Int) : String :=
  fmtDayNum (weekStart z) ++ "..." ++ fmtDayNum (weekEnd z)

/-- One parsed raw-CSV row, keeping the fields the aggregation reads: author,
conclusion, run_attempt (already int()-converted) and the date part of the
parsed created_at timestamp as a day number. -/
structure RawRow where
  author : String
  conclusion : String
  run_attempt : Int
  created_days : Int
  deriving DecidableEq

/-- The per-bucket counter pair, initialized to zero by the defaultdict
(line 41). -/
structure Counts where
  success : Int
  failure : Int
  deriving DecidableEq

/-- Lines 52-58: the conditional conclusion increment followed by the
unconditional retry increment, applied to one bucket. -/
def applyRow (conclusion : String) (run_attempt : Int) (st : Counts) : Counts :=
  let st :=
    if conclusion = "success" then { st with success := st.success + 1 }
    else if conclusion = "failure" then { st with failure := st.failure + 1 }
    else st
  { st with failure := st.failure + (run_attempt - 1) }

/-- Insertion-ordered association list update with defaultdict semantics:
the first entry with the key is replaced by f of its value; a missing key is
appended holding f of the default. -/
def updateAssoc (l : List (String × α)) (k : String) (d : α) (f : α → α) :
    List (String × α) :=
  match l with
  | [] => [(k, f d)]
  | (k', v) :: rest =>
      if k' = k then (k', f v) :: rest else (k', v) :: updateAssoc rest k d f

/-- Association-list lookup with a default, matching defaultdict reads. -/
def getAssoc (l : List (String × α)) (k : String) (d : α) : α :=
  match l with
  | [] => d
  | (k', v) :: rest => if k' = k then v else getAssoc rest k d

/-- The nested author → date_range → counters map (line 41), as nested
insertion-ordered association lists. -/
abbrev AuthorStats := List (String × List (String × Counts))

/-- Lines 43-58: fold one row into the nested map, keyed by its author and its
week date_range. -/
def foldRow (stats : AuthorStats) (r : RawRow) : AuthorStats :=
  updateAssoc stats r.author []
    (fun weeks =>
      updateAssoc weeks (dateRange r.created_days) ⟨0, 0⟩
        (applyRow r.conclusion r.run_attempt))

/-- The whole grouping loop over the parsed rows. -/
def aggregate (rows : List RawRow) : AuthorStats :=
  rows.foldl foldRow []

/-- Read one bucket of the nested map (with the defaultdict zero default). -/
def bucketOf (stats : AuthorStats) (a dr : String) : Counts :=
  getAssoc (getAssoc stats a []) dr ⟨0, 0⟩

/-- Round-half-to-even of the rational a / b (b ≠ 0), computed on integers.
This is the value Python round() returns at exactly representable inputs. -/
def roundHalfEvenPair (a b : Int) : Int :=
  let a2 := if b < 0 then -a else a
  let b2 := if b < 0 then -b else b
  let q := a2.fdiv b2
  let r2 := 2 * (a2 - q * b2)
  if r2 < b2 then q else if b2 < r2 then q + 1 else if q % 2 = 0 then q else q + 1

/-- Lines 70-78: the build_ratio CSV cell of one bucket.  Sum.inl is the
literal text written to the CSV (the code writes the string "inf" when
failure = 0 < success); Sum.inr is round(success / failure, 2) as an exact
rational (round(0, 2) = 0 in the failure = 0 = success branch). -/
def cellOf (st : Counts) : String ⊕ ℚ :=
  if st.failure = 0 then (if 0 < st.success then .inl "inf" else .inr 0)
  else .inr ((roundHalfEvenPair (100 * st.success) st.failure : ℚ) / 100)

/-- One output row of the summary CSV (lines 75-79). -/
structure PerformanceRecord where
  author : String
  date_range : String
  ratio_cell : String ⊕ ℚ
  deriving DecidableEq

/-- Lines 61-79: one PerformanceRecord per bucket, authors in insertion order,
weeks per author in insertion order. -/
def resultsOf (stats : AuthorStats) : List PerformanceRecord :=
  stats.flatMap (fun p => p.2.map (fun q => ⟨p.1, q.1, cellOf q.2⟩))

/-- Lines 41-96 as one function of the parsed rows and the clock: the record
list and the output filename, whose only dependence on the clock is the
formatted timestamp (line 82-83). -/
def aggregatorRun (rows : List RawRow) (stamp : String) :
    List PerformanceRecord × String :=
  (resultsOf (aggregate rows),
   "github_performance_by_author_" ++ stamp ++ ".csv")

/-- Split a character list at every occurrence of the separator character,
Python str.split with a one-character separator. -/
def splitOnChar (c : Char) : List Char → List (List Char)
  | [] => [[]]
  | x :: xs =>
    let r := splitOnChar c xs
    if x = c then [] :: r
    else
      match r with
      | [] => [[x]]
      | y :: ys => (x :: y) :: ys

/-- Line 26 key function: basename.split(underscore)[-1].split(dot)[0].
For github_workflow_data_YYYYMMDD_HHMMSS.csv this is the HHMMSS character
run. -/
def fileKey (name : String) : List Char :=
  (splitOnChar '.' ((splitOnChar '_' name.data).getLastD [])).headD []

/-- Python string comparison: lexicographic on code points. -/
def charListLt : List Char → List Char → Bool
  | [], [] => false
  | [], _ :: _ => true
  | _ :: _, [] => false
  | a :: as, b :: bs => if a < b then true else if b < a then false else charListLt as bs

/-- Line 26: max(workflow_files, key=fileKey); Python max keeps the first of
equal keys.  none when no file matched the glob (lines 21-23 abort). -/
def latestFile (files : List String) : Option String :=
  match files with
  | [] => none
  | f :: fs =>
      some (fs.foldl (fun best x => if charListLt (fileKey best) (fileKey x) then x else best) f)

/-- Python truthiness of an optional string: None and the empty string are
falsy. -/
def strTruthy : Option String → Bool
  | none => false
  | some s => !(s = "")

/-- arguments_helper.py lines 4-33, format_date_range.  today is the current
date as a day number; the days argument subtracts whole days from it
(timedelta); date strings are passed through untouched. -/
def format_date_range (start_date end_date : Option String) (days : Option Int)
    (today : Int) : Option String :=
  let start_date :=
    match days with
    | some n => some (fmtDayNum (today - n))
    | none => start_date
  let end_date :=
    match days with
    | some _ => if strTruthy end_date then end_date else some (fmtDayNum today)
    | none => end_date
  if strTruthy start_date && strTruthy end_date then
    some (start_date.getD "" ++ ".." ++ end_date.getD "")
  else if strTruthy start_date then some (">=" ++ start_date.getD "")
  else if strTruthy end_date then some ("<=" ++ end_date.getD "")
  else none

/-- One provider-native workflow run, with the attributes
repository_analyzer.py lines 137-153 read.  pull_base_refs lists the base
branch ref of each linked pull request (raw_data); created_at is the provider
timestamp already rendered as text. -/
structure WorkflowRun where
  id : Int
  actor : Option String
  name : String
  display_title : String
  status : String
  conclusion : Option String
  head_branch : String
  pull_base_refs : List (Option String)
  run_attempt : Int
  run_number : Int
  created_at : String
  deriving DecidableEq

/-- One normalized BuildRun record, the dict appended at lines 140-153. -/
structure BuildRecord where
  id : Int
  author : Option String
  workflow_name : String
  pr_name : String
  status : String
  conclusion : Option String
  head_branch : String
  base_branch : Option String
  pull_requests_count : Nat
  run_attempt : Int
  run_number : Int
  created_at : String
  deriving DecidableEq

/-- Lines 140-153: the per-run normalization. -/
def normalizeRun (r : WorkflowRun) : BuildRecord :=
  { id := r.id
    author := r.actor
    workflow_name := r.name
    pr_name := r.display_title
    status := r.status
    conclusion := r.conclusion
    head_branch := r.head_branch
    base_branch := match r.pull_base_refs with
      | [] => none
      | b :: _ => b
    pull_requests_count := r.pull_base_refs.length
    run_attempt := r.run_attempt
    run_number := r.run_number
    created_at := r.created_at }

/-- Python list slicing xs[:l]: for nonnegative l the first l elements, for
negative l everything but the last -l elements (clamped at zero). -/
def pySliceTo (l : Int) (xs : List α) : List α :=
  if 0 ≤ l then xs.take l.toNat
  else xs.take (xs.length - (-l).toNat)

/-- Python truthiness of an optional int: None and 0 are falsy. -/
def intTruthy : Option Int → Bool
  | none => false
  | some n => !(n = 0)

/-- The shape returned by get_workflow_runs: the provider total and the
normalized records. -/
structure RunsResult where
  total_count : Int
  runs : List BuildRecord
  deriving DecidableEq

/-- repository_analyzer.py lines 116-161, get_workflow_runs.  The provider
interaction inside the try block is abstracted by its outcome: either an
error or the pair (totalCount, listed runs).  Line 137 slices by the limit
only when limit is truthy; lines 159-161 catch every provider error and
return the empty sentinel. -/
def get_workflow_runs (fetched : Except String (Int × List WorkflowRun))
    (limit : Option Int) : RunsResult :=
  match fetched with
  | .error _ => { total_count := 0, runs := [] }
  | .ok (tc, rs) =>
      let processed := if intTruthy limit then pySliceTo (limit.getD 0) rs else rs
      { total_count := tc, runs := processed.map normalizeRun }

/-! ### Helper lemmas -/

theorem getAssoc_updateAssoc_self (l : List (String × α)) (k : String) (d : α)
    (f : α → α) : getAssoc (updateAssoc l k d f) k d = f (getAssoc l k d) := by
  induction l with
  | nil => simp [updateAssoc, getAssoc]
  | cons e tl ih =>
      obtain ⟨a, v⟩ := e
      by_cases h : a = k
      · simp [updateAssoc, getAssoc, h]
      · simp [updateAssoc, getAssoc, h, ih]

theorem getAssoc_updateAssoc_ne (l : List (String × α)) (k k0 : String) (d : α)
    (f : α → α) (h : k0 ≠ k) :
    getAssoc (updateAssoc l k d f) k0 d = getAssoc l k0 d := by
  have h3 : ¬ k = k0 := fun h2 => h h2.symm
  induction l with
  | nil => simp [updateAssoc, getAssoc, h3]
  | cons e tl ih =>
      obtain ⟨a, v⟩ := e
      by_cases h1 : a = k
      · simp [updateAssoc, getAssoc, h1, h3]
      · by_cases h2 : a = k0 <;> simp [updateAssoc, getAssoc, h, h1, h2, ih]

theorem keys_updateAssoc (l : List (String × α)) (k : String) (d : α)
    (f : α → α) :
    (updateAssoc l k d f).map Prod.fst =
      (if k ∈ l.map Prod.fst then l.map Prod.fst else l.map Prod.fst ++ [k]) := by
  induction l with
  | nil => simp [updateAssoc]
  | cons e tl ih =>
      obtain ⟨a, v⟩ := e
      by_cases h : a = k
      · simp [updateAssoc, h]
      · have h2 : ¬ k = a := fun h3 => h h3.symm
        by_cases h1 : k ∈ tl.map Prod.fst <;>
          simp [updateAssoc, h, h1, h2, ih]

theorem mem_keys_updateAssoc_self (l : List (String × α)) (k : String) (d : α)
    (f : α → α) : k ∈ (updateAssoc l k d f).map Prod.fst := by
  rw [keys_updateAssoc]
  by_cases h : k ∈ l.map Prod.fst <;> simp [h]

theorem mem_keys_updateAssoc_of_mem (l : List (String × α)) (k k0 : String)
    (d : α) (f : α → α) (h : k0 ∈ l.map Prod.fst) :
    k0 ∈ (updateAssoc l k d f).map Prod.fst := by
  rw [keys_updateAssoc]
  by_cases h1 : k ∈ l.map Prod.fst <;> simp [h1, h]

theorem getAssoc_mem (l : List (String × α)) (k : String) (d : α)
    (h : k ∈ l.map Prod.fst) : (k, getAssoc l k d) ∈ l := by
  induction l with
  | nil => simp at h
  | cons e tl ih =>
      obtain ⟨a, v⟩ := e
      by_cases h1 : a = k
      · subst h1
        simp [getAssoc]
      · have h2 : k ∈ tl.map Prod.fst := by
          rcases List.mem_map.mp h with ⟨q, hq, hfst⟩
          rcases List.mem_cons.mp hq with hq1 | hq1
          · exact absurd (hfst ▸ congrArg Prod.fst hq1).symm (by simpa using h1)
          · exact List.mem_map.mpr ⟨q, hq1, hfst⟩
        simp only [getAssoc, h1, if_false]
        exact List.mem_cons.mpr (Or.inr (ih h2))

theorem applyRow_neutral (c : String) (st : Counts) (h1 : c ≠ "success")
    (h2 : c ≠ "failure") : applyRow c 1 st = st := by
  simp [applyRow, h1, h2]

theorem bucketOf_foldRow_self (stats : AuthorStats) (r : RawRow) :
    bucketOf (foldRow stats r) r.author (dateRange r.created_days)
      = applyRow r.conclusion r.run_attempt
          (bucketOf stats r.author (dateRange r.created_days)) := by
  rw [bucketOf, foldRow, getAssoc_updateAssoc_self, getAssoc_updateAssoc_self,
    bucketOf]

/-- Folding one row touches exactly one bucket of the nested map: the bucket
named by the row gets applyRow, every other bucket is untouched. -/
theorem bucketOf_foldRow (stats : AuthorStats) (r : RawRow) (a dr : String) :
    bucketOf (foldRow stats r) a dr =
      if r.author = a ∧ dateRange r.created_days = dr
      then applyRow r.conclusion r.run_attempt (bucketOf stats a dr)
      else bucketOf stats a dr := by
  by_cases h1 : r.author = a
  · subst h1
    by_cases h2 : dateRange r.created_days = dr
    · subst h2
      rw [if_pos ⟨rfl, rfl⟩, bucketOf_foldRow_self]
    · rw [if_neg (fun hc => h2 hc.2), bucketOf, foldRow,
        getAssoc_updateAssoc_self,
        getAssoc_updateAssoc_ne _ _ _ _ _ (fun hh => h2 hh.symm), bucketOf]
  · rw [if_neg (fun hc => h1 hc.1), bucketOf, foldRow,
      getAssoc_updateAssoc_ne _ _ _ _ _ (fun hh => h1 hh.symm), bucketOf]

/-- Folding any list of rows leaves a bucket unchanged when every row of the
list that lands in that bucket is neutral (conclusion neither success nor
failure, run_attempt 1); rows of other buckets may do anything. -/
theorem bucketOf_foldl_neutral (rows : List RawRow) (a dr : String)
    (hz : ∀ r ∈ rows, r.author = a → dateRange r.created_days = dr →
      r.conclusion ≠ "success" ∧ r.conclusion ≠ "failure" ∧ r.run_attempt = 1) :
    ∀ stats, bucketOf (rows.foldl foldRow stats) a dr = bucketOf stats a dr := by
  induction rows with
  | nil => intro stats; rfl
  | cons r tl ih =>
      intro stats
      rw [List.foldl_cons, ih (fun x hx h1 h2 => hz x (by simp [hx]) h1 h2),
        bucketOf_foldRow]
      by_cases hc : r.author = a ∧ dateRange r.created_days = dr
      · obtain ⟨hz1, hz2, hz3⟩ := hz r (by simp) hc.1 hc.2
        rw [if_pos hc, hz3, applyRow_neutral r.conclusion _ hz1 hz2]
      · rw [if_neg hc]

/-- The (author, date_range) key pair is present in the nested map. -/
def keyPresent (stats : AuthorStats) (a dr : String) : Prop :=
  a ∈ stats.map Prod.fst ∧ dr ∈ (getAssoc stats a []).map Prod.fst

theorem keyPresent_foldRow_self (stats : AuthorStats) (r : RawRow) :
    keyPresent (foldRow stats r) r.author (dateRange r.created_days) := by
  constructor
  · exact mem_keys_updateAssoc_self stats r.author [] _
  · rw [foldRow, getAssoc_updateAssoc_self]
    exact mem_keys_updateAssoc_self _ _ _ _

theorem keyPresent_foldRow_mono (stats : AuthorStats) (r : RawRow)
    (a dr : String) (h : keyPresent stats a dr) :
    keyPresent (foldRow stats r) a dr := by
  obtain ⟨h1, h2⟩ := h
  by_cases he : a = r.author
  · rw [he] at h1 h2 ⊢
    refine ⟨mem_keys_updateAssoc_self stats r.author [] _, ?_⟩
    rw [foldRow, getAssoc_updateAssoc_self]
    exact mem_keys_updateAssoc_of_mem _ _ _ _ _ h2
  · refine ⟨mem_keys_updateAssoc_of_mem _ _ _ _ _ h1, ?_⟩
    rw [foldRow, getAssoc_updateAssoc_ne stats r.author a [] _ he]
    exact h2

theorem keyPresent_foldl (rows : List RawRow) (a dr : String) :
    ∀ stats, keyPresent stats a dr →
      keyPresent (rows.foldl foldRow stats) a dr := by
  induction rows with
  | nil => intro stats h; simpa using h
  | cons r tl ih =>
      intro stats h
      rw [List.foldl_cons]
      exact ih (foldRow stats r) (keyPresent_foldRow_mono stats r a dr h)

theorem bucket_mem_resultsOf (stats : AuthorStats) (a dr : String)
    (h : keyPresent stats a dr) :
    (⟨a, dr, cellOf (bucketOf stats a dr)⟩ : PerformanceRecord) ∈
      resultsOf stats := by
  obtain ⟨h1, h2⟩ := h
  refine List.mem_flatMap.mpr ⟨(a, getAssoc stats a []), getAssoc_mem _ _ _ h1, ?_⟩
  refine List.mem_map.mpr ⟨(dr, getAssoc (getAssoc stats a []) dr ⟨0, 0⟩),
    getAssoc_mem _ _ _ h2, ?_⟩
  rfl

theorem append_dash_ne_empty (a b : String) : a ++ "-" ++ b ≠ "" := by
  intro h
  have h1 : (a ++ "-" ++ b).length = ("" : String).length := by rw [h]
  rw [String.length_append, String.length_append] at h1
  have h2 : ("-" : String).length = 1 := rfl
  have h3 : ("" : String).length = 0 := rfl
  omega

theorem fmtDayNum_ne_empty (z : Int) : fmtDayNum z ≠ "" :=
  append_dash_ne_empty _ _

/-! ### Claim theorems -/

/-- C1: folding one parsed raw-CSV row updates the row's (author, week)
bucket as follows: success gains 1 exactly when the conclusion is success,
failure gains 1 exactly when the conclusion is failure (any other conclusion
fires neither branch), and failure always additionally gains
run_attempt - 1; consequently a row with conclusion success and
run_attempt 3 contributes success = 1, failure = 2 to its bucket. -/
theorem C1_row_update (stats : AuthorStats) (r : RawRow) (a : String)
    (z : Int) :
    (bucketOf (foldRow stats r) r.author (dateRange r.created_days)).success
        = (bucketOf stats r.author (dateRange r.created_days)).success
          + (if r.conclusion = "success" then 1 else 0)
    ∧ (bucketOf (foldRow stats r) r.author (dateRange r.created_days)).failure
        = (bucketOf stats r.author (dateRange r.created_days)).failure
          + (if r.conclusion = "failure" then 1 else 0) + (r.run_attempt - 1)
    ∧ bucketOf (aggregate [⟨a, "success", 3, z⟩]) a (dateRange z)
        = ⟨1, 2⟩ := by
  have hb : bucketOf (foldRow stats r) r.author (dateRange r.created_days)
      = applyRow r.conclusion r.run_attempt
          (bucketOf stats r.author (dateRange r.created_days)) := by
    rw [bucketOf, foldRow, getAssoc_updateAssoc_self, getAssoc_updateAssoc_self,
      bucketOf]
  refine ⟨?_, ?_, ?_⟩
  · rw [hb, applyRow]
    by_cases h1 : r.conclusion = "success" <;>
      by_cases h2 : r.conclusion = "failure" <;> simp [h1, h2]
  · rw [hb, applyRow]
    by_cases h1 : r.conclusion = "success" <;>
      by_cases h2 : r.conclusion = "failure" <;> simp [h1, h2]
  · simp [aggregate, foldRow, bucketOf, updateAssoc, getAssoc, applyRow]

/-- C2: the build_ratio cell of a bucket is the literal string inf when
failure = 0 and success is positive, the number 0 when both counters are 0,
and otherwise round(success / failure, 2); in particular 5/0 renders inf,
0/0 renders 0, 3/2 renders 1.5 and 1/3 renders 0.33. -/
theorem C2_ratio_cell (st : Counts) :
    (st.failure = 0 → 0 < st.success → cellOf st = .inl "inf")
    ∧ (st.failure = 0 → st.success = 0 → cellOf st = .inr 0)
    ∧ (st.failure ≠ 0 → cellOf st
        = .inr ((roundHalfEvenPair (100 * st.success) st.failure : ℚ) / 100))
    ∧ cellOf ⟨5, 0⟩ = .inl "inf"
    ∧ cellOf ⟨0, 0⟩ = .inr 0
    ∧ cellOf ⟨3, 2⟩ = .inr (3 / 2)
    ∧ cellOf ⟨1, 3⟩ = .inr (33 / 100) := by
  refine ⟨?_, ?_, ?_, by simp [cellOf], by simp [cellOf], ?_, ?_⟩
  · intro h1 h2; simp [cellOf, h1, h2]
  · intro h1 h2; simp [cellOf, h1, h2]
  · intro h1; simp [cellOf, h1]
  · have h : roundHalfEvenPair 300 2 = 150 := by decide
    norm_num [cellOf, h]
  · have h : roundHalfEvenPair 100 3 = 33 := by decide
    norm_num [cellOf, h]

/-- C2 witness: the three conditional cases of C2_ratio_cell instantiated at
concrete buckets. -/
theorem C2_ratio_cell_witness :
    cellOf ⟨7, 0⟩ = .inl "inf" ∧ cellOf ⟨0, 0⟩ = .inr 0
    ∧ cellOf ⟨3, 2⟩
        = .inr ((roundHalfEvenPair (100 * 3) 2 : ℚ) / 100) :=
  ⟨(C2_ratio_cell ⟨7, 0⟩).1 rfl (by norm_num),
   (C2_ratio_cell ⟨0, 0⟩).2.1 rfl rfl,
   (C2_ratio_cell ⟨3, 2⟩).2.2.1 (by norm_num)⟩

/-- C3: week_start is the Monday on or before the creation date (its weekday
is 0, it does not exceed the date, and the date is within the following six
days), week_end is week_start + 6; a Sunday run belongs to the week starting
the preceding Monday, a Monday run starts its own bucket; and the bucket is
rendered as week_start, three dots, week_end, each formatted YYYY-MM-DD. -/
theorem C3_week_bucketing (z : Int) :
    pyWeekday (weekStart z) = 0
    ∧ weekStart z ≤ z
    ∧ z ≤ weekStart z + 6
    ∧ weekEnd z = weekStart z + 6
    ∧ (pyWeekday z = 6 → weekStart z = z - 6)
    ∧ (pyWeekday z = 0 → weekStart z = z)
    ∧ dateRange z = fmtDayNum (weekStart z) ++ "..." ++ fmtDayNum (weekEnd z) := by
  refine ⟨?_, ?_, ?_, rfl, ?_, ?_, rfl⟩ <;>
    simp only [pyWeekday, weekStart] <;> omega

/-- C3 witness: 2024-01-07 (day 19729) was a Sunday and buckets to the week
of Monday 2024-01-01 (day 19723); 2024-01-01 itself starts its own week; the
rendered range of the Sunday run is 2024-01-01...2024-01-07. -/
theorem C3_week_bucketing_witness :
    weekStart 19729 = 19729 - 6
    ∧ weekStart 19723 = 19723
    ∧ dateRange 19729 = "2024-01-01...2024-01-07" := by
  refine ⟨(C3_week_bucketing 19729).2.2.2.2.1 (by decide),
    (C3_week_bucketing 19723).2.2.2.2.2.1 (by decide), by decide⟩

/-- C4: the observed file-selection behavior of line 26.  The selection key
is basename.split(underscore)[-1].split(dot)[0], which for the pattern
github_workflow_data_YYYYMMDD_HHMMSS.csv is only the HHMMSS component: with a
June file whose time of day is 000000 and a January file whose time of day is
120000, the January file is selected, although the June file carries the
greater embedded timestamp.  On the spec's example pair (whose date order
agrees with the time-of-day order) the June file happens to be selected. -/
theorem C4_file_selection_behavior :
    latestFile ["github_workflow_data_20240615_000000.csv",
        "github_workflow_data_20240101_120000.csv"]
      = some "github_workflow_data_20240101_120000.csv"
    ∧ latestFile ["github_workflow_data_20240101_000000.csv",
        "github_workflow_data_20240615_120000.csv"]
      = some "github_workflow_data_20240615_120000.csv"
    ∧ fileKey "github_workflow_data_20240615_000000.csv"
        = ['0', '0', '0', '0', '0', '0'] := by
  refine ⟨by decide, by decide, by decide⟩

/-- C5 counterexample: a cancelled row with run_attempt 1 fires neither the
success-conclusion increment nor the failure-conclusion increment, so the
total increase of the two counters is 0 and not the 1 + (run_attempt - 1)
that exactly one conclusion increment would give. -/
theorem C5_exactly_one_counterexample :
    ¬ ((applyRow "cancelled" 1 ⟨0, 0⟩).success
        + (applyRow "cancelled" 1 ⟨0, 0⟩).failure = (0 : Int) + 0 + 1) := by
  decide

/-- C5 amended: for every folded row, at most one of the two
conclusion increments fires: exactly one when the conclusion is success or
failure, and neither otherwise (for example cancelled or skipped); the
failure counter additionally always receives run_attempt - 1, which is
nonnegative whenever run_attempt is at least 1. -/
theorem C5_increment_discipline (c : String) (ra : Int) (st : Counts) :
    ((c = "success" ∨ c = "failure") →
        (applyRow c ra st).success + (applyRow c ra st).failure
          = st.success + st.failure + ra)
    ∧ (c ≠ "success" → c ≠ "failure" →
        (applyRow c ra st).success + (applyRow c ra st).failure
          = st.success + st.failure + (ra - 1))
    ∧ (applyRow c ra st).failure
        = st.failure + (if c = "failure" then 1 else 0) + (ra - 1)
    ∧ (1 ≤ ra → 0 ≤ ra - 1) := by
  refine ⟨?_, ?_, ?_, by omega⟩
  · rintro (h | h) <;> simp [applyRow, h] <;> ring
  · intro h1 h2; simp [applyRow, h1, h2]; ring
  · by_cases h1 : c = "success" <;> by_cases h2 : c = "failure" <;>
      simp [applyRow, h1, h2]

/-- C5 witness: the amended increment discipline instantiated at a success
row with run_attempt 3 and at a cancelled row with run_attempt 1. -/
theorem C5_increment_discipline_witness :
    (applyRow "success" 3 ⟨0, 0⟩).success + (applyRow "success" 3 ⟨0, 0⟩).failure
        = (0 : Int) + 0 + 3
    ∧ (applyRow "cancelled" 1 ⟨0, 0⟩).success
        + (applyRow "cancelled" 1 ⟨0, 0⟩).failure = (0 : Int) + 0 + (1 - 1)
    ∧ (0 : Int) ≤ 3 - 1 :=
  ⟨(C5_increment_discipline "success" 3 ⟨0, 0⟩).1 (Or.inl rfl),
   (C5_increment_discipline "cancelled" 1 ⟨0, 0⟩).2.1 (by decide) (by decide),
   (C5_increment_discipline "x" 3 ⟨0, 0⟩).2.2.2 (by decide)⟩

theorem strTruthy_fmtDayNum (z : Int) : strTruthy (some (fmtDayNum z)) = true := by
  simp [strTruthy, fmtDayNum_ne_empty z]

/-- C6: the date-filter formatter resolves days first (start becomes
today - days, and end becomes today when absent), then emits start..end when
both dates are resolved, else a one-sided bound, else no filter; date strings
are passed through unchanged without validation. -/
theorem C6_date_filter (sd ed : Option String) (n today : Int) :
    (format_date_range sd ed (some n) today
        = some (fmtDayNum (today - n) ++ ".."
            ++ (if strTruthy ed then ed.getD "" else fmtDayNum today)))
    ∧ (strTruthy sd = true → strTruthy ed = true →
        format_date_range sd ed none today
          = some (sd.getD "" ++ ".." ++ ed.getD ""))
    ∧ (strTruthy sd = true → strTruthy ed = false →
        format_date_range sd ed none today = some (">=" ++ sd.getD ""))
    ∧ (strTruthy sd = false → strTruthy ed = true →
        format_date_range sd ed none today = some ("<=" ++ ed.getD ""))
    ∧ (strTruthy sd = false → strTruthy ed = false →
        format_date_range sd ed none today = none) := by
  refine ⟨?_, ?_, ?_, ?_, ?_⟩
  · by_cases hed : strTruthy ed = true
    · simp [format_date_range, hed, strTruthy_fmtDayNum]
    · simp at hed
      simp [format_date_range, hed, strTruthy_fmtDayNum]
  · intro h1 h2; simp [format_date_range, h1, h2]
  · intro h1 h2; simp [format_date_range, h1, h2]
  · intro h1 h2; simp [format_date_range, h1, h2]
  · intro h1 h2; simp [format_date_range, h1, h2]

/-- C6 witness: the four none-days cases at concrete arguments, including a
malformed date string passed through unchanged. -/
theorem C6_date_filter_witness :
    format_date_range (some "not-a-date") (some "2024-13-99") none 0
        = some ("not-a-date" ++ ".." ++ "2024-13-99")
    ∧ format_date_range (some "2024-01-01") none none 0
        = some (">=" ++ "2024-01-01")
    ∧ format_date_range none (some "2024-06-15") none 0
        = some ("<=" ++ "2024-06-15")
    ∧ format_date_range none none none 0 = none :=
  ⟨(C6_date_filter (some "not-a-date") (some "2024-13-99") 0 0).2.1
      (by decide) (by decide),
   (C6_date_filter (some "2024-01-01") none 0 0).2.2.1 (by decide) rfl,
   (C6_date_filter none (some "2024-06-15") 0 0).2.2.2.1 rfl (by decide),
   (C6_date_filter none none 0 0).2.2.2.2 rfl rfl⟩

/-- A concrete provider run, used in closed fetcher statements. -/
def sampleRun : WorkflowRun :=
  { id := 1
    actor := some "alice"
    name := "CI"
    display_title := "PR 1"
    status := "completed"
    conclusion := some "success"
    head_branch := "feature"
    pull_base_refs := [some "main"]
    run_attempt := 1
    run_number := 10
    created_at := "2024-01-02 03:04:05" }

/-- C7 counterexample: with limit set to 0 and one provider run, the run is
still processed (Python slices only when the limit is truthy), so more than
limit-many runs are normalized. -/
theorem C7_limit_zero_counterexample :
    ¬ ((get_workflow_runs (.ok (1, [sampleRun])) (some 0)).runs.length ≤ 0) := by
  decide

/-- C7 amended: for every limit set to a positive value, at most limit
workflow runs are processed, namely exactly the first limit-many provider
runs, each normalized into one record; when limit is not set, or is set to 0,
the full provider set is processed. -/
theorem C7_limit_cap (tc : Int) (rs : List WorkflowRun) (l : Int) :
    (0 < l → (get_workflow_runs (.ok (tc, rs)) (some l)).runs.length ≤ l.toNat)
    ∧ (0 < l → (get_workflow_runs (.ok (tc, rs)) (some l)).runs
        = (rs.take l.toNat).map normalizeRun)
    ∧ (get_workflow_runs (.ok (tc, rs)) none).runs = rs.map normalizeRun
    ∧ (get_workflow_runs (.ok (tc, rs)) (some 0)).runs
        = rs.map normalizeRun := by
  have hruns : ∀ h0 : 0 < l, (get_workflow_runs (.ok (tc, rs)) (some l)).runs
      = (rs.take l.toNat).map normalizeRun := by
    intro h0
    have hne : ¬ l = 0 := by omega
    have hle : 0 ≤ l := le_of_lt h0
    simp [get_workflow_runs, intTruthy, pySliceTo, hne, hle]
  refine ⟨?_, hruns, ?_, ?_⟩
  · intro h0
    rw [hruns h0]
    simp [List.length_take]
  · simp [get_workflow_runs, intTruthy]
  · simp [get_workflow_runs, intTruthy]

/-- C7 witness: the positive-limit cap instantiated with two provider runs
and limit 1. -/
theorem C7_limit_cap_witness :
    (get_workflow_runs (.ok (2, [sampleRun, sampleRun])) (some 1)).runs.length
      ≤ (1 : Int).toNat :=
  (C7_limit_cap 2 [sampleRun, sampleRun] 1).1 (by decide)

/-- C8: every provider error while listing workflow runs is converted to the
empty-result sentinel (total_count 0, no runs), the same value an empty
repository produces, so the two are indistinguishable from the returned
value. -/
theorem C8_provider_error_sentinel (e : String) (limit : Option Int) :
    get_workflow_runs (.error e) limit = { total_count := 0, runs := [] }
    ∧ get_workflow_runs (.error e) limit
        = get_workflow_runs (.ok (0, [])) limit := by
  refine ⟨rfl, ?_⟩
  simp [get_workflow_runs, pySliceTo]

/-- C9: the Aggregator is a pure function of the parsed CSV rows and the
clock: with the clock held fixed the two runs agree exactly, the record list
never depends on the clock, and the output filename depends on the clock only
through the embedded timestamp. -/
theorem C9_rerun_determinism (rows : List RawRow) (s1 s2 : String) :
    (aggregatorRun rows s1).1 = (aggregatorRun rows s2).1
    ∧ (s1 = s2 → aggregatorRun rows s1 = aggregatorRun rows s2)
    ∧ (aggregatorRun rows s1).2
        = "github_performance_by_author_" ++ s1 ++ ".csv" :=
  ⟨rfl, fun h => by rw [h], rfl⟩

/-- C9 witness: the fixed-clock case at a concrete row list and timestamp. -/
theorem C9_rerun_determinism_witness :
    aggregatorRun [⟨"alice", "success", 1, 19723⟩] "20240101_000000"
      = aggregatorRun [⟨"alice", "success", 1, 19723⟩] "20240101_000000" :=
  (C9_rerun_determinism [⟨"alice", "success", 1, 19723⟩]
    "20240101_000000" "20240101_000000").2.1 rfl

/-- A mixed concrete dataset: bob has a success-with-retry run in the week of
Monday 2024-01-01, alice has only a cancelled run (run_attempt 1) in that
week, and alice also has a success run in the following week. -/
def mixedRows : List RawRow :=
  [⟨"bob", "success", 2, 19723⟩,
   ⟨"alice", "cancelled", 1, 19724⟩,
   ⟨"alice", "success", 1, 19730⟩]

/-- C10: in an arbitrary dataset, an (author, week) bucket all of whose rows
are neutral (conclusion neither success nor failure, run_attempt 1) ends with
both counters 0, and — provided at least one row lands in it — the author is
still emitted in the summary as a record with ratio cell 0; moreover a single
neutral row contributes 0 to both counters of its bucket yet still creates
the bucket, whatever rows were folded before it. -/
theorem C10_neutral_bucket_emitted (rows : List RawRow) (a dr : String)
    (hz : ∀ r ∈ rows, r.author = a → dateRange r.created_days = dr →
      r.conclusion ≠ "success" ∧ r.conclusion ≠ "failure" ∧ r.run_attempt = 1)
    (hex : ∃ r ∈ rows, r.author = a ∧ dateRange r.created_days = dr) :
    bucketOf (aggregate rows) a dr = ⟨0, 0⟩
    ∧ (⟨a, dr, Sum.inr 0⟩ : PerformanceRecord) ∈ resultsOf (aggregate rows)
    ∧ ∀ (stats : AuthorStats) (s : RawRow), s.conclusion ≠ "success" →
        s.conclusion ≠ "failure" → s.run_attempt = 1 →
        bucketOf (foldRow stats s) s.author (dateRange s.created_days)
            = bucketOf stats s.author (dateRange s.created_days)
        ∧ keyPresent (foldRow stats s) s.author (dateRange s.created_days) := by
  have hb : bucketOf (aggregate rows) a dr = ⟨0, 0⟩ := by
    rw [aggregate, bucketOf_foldl_neutral rows a dr hz []]
    rfl
  have hkey : keyPresent (aggregate rows) a dr := by
    obtain ⟨r, hr, hra, hrd⟩ := hex
    obtain ⟨l1, l2, rfl⟩ := List.append_of_mem hr
    rw [aggregate, List.foldl_append, List.foldl_cons]
    refine keyPresent_foldl l2 a dr _ ?_
    rw [← hra, ← hrd]
    exact keyPresent_foldRow_self _ r
  refine ⟨hb, ?_, ?_⟩
  · have hmem := bucket_mem_resultsOf (aggregate rows) a dr hkey
    rw [hb] at hmem
    have hc : cellOf ⟨0, 0⟩ = Sum.inr 0 := by simp [cellOf]
    rw [hc] at hmem
    exact hmem
  · intro stats s hs1 hs2 hs3
    refine ⟨?_, keyPresent_foldRow_self stats s⟩
    rw [bucketOf_foldRow, if_pos ⟨rfl, rfl⟩, hs3,
      applyRow_neutral s.conclusion _ hs1 hs2]

/-- C10 witness: in the mixed dataset, the cancelled-only alice week amid
bob's and alice's other success data still ends as a zero-counter bucket and
is emitted with ratio cell 0. -/
theorem C10_neutral_bucket_emitted_witness :
    bucketOf (aggregate mixedRows) "alice" (dateRange 19724) = ⟨0, 0⟩
    ∧ (⟨"alice", dateRange 19724, Sum.inr 0⟩ : PerformanceRecord)
        ∈ resultsOf (aggregate mixedRows) :=
  ⟨(C10_neutral_bucket_emitted mixedRows "alice" (dateRange 19724)
      (by decide) (by decide)).1,
   (C10_neutral_bucket_emitted mixedRows "alice" (dateRange 19724)
      (by decide) (by decide)).2.1⟩
